import Mathlib

/-!
Shallow embedding of the prompt-printer application core: the AI service
adapter (checkConnection, analyzePrompt), the save/commit algorithm
(handleSave) and the LIST / EDIT / PREVIEW view state machine of the App
component.  JS strings are modelled as lists of characters; JS exceptions
as Except; the asynchronous analysis call as an explicit request counter
plus a resolution event.  Source: src/unnamed/part_000 (services/ai plus
the App component) and src/types.ts.
-/

namespace PromptPrinter

/-- JS strings are modelled as lists of characters. -/
abbrev Str := List Char

/-! ### Decimal digits: JS number printing and parseInt -/

/-- The decimal digit character for a value below ten. -/
def digitChar : Nat → Char
  | 0 => '0'
  | 1 => '1'
  | 2 => '2'
  | 3 => '3'
  | 4 => '4'
  | 5 => '5'
  | 6 => '6'
  | 7 => '7'
  | 8 => '8'
  | 9 => '9'
  | _ => 'x'

/-- Whether a character is a decimal digit (code points 48 to 57). -/
def isDigitCh (c : Char) : Bool := 48 ≤ c.toNat && c.toNat ≤ 57

/-- Numeric value of a list of digit characters, most significant first. -/
def digitsToNat (ds : Str) : Nat := ds.foldl (fun a c => 10 * a + (c.toNat - 48)) 0

/-- Fuel-indexed decimal printer; the fuel bounds the recursion depth. -/
def natDigitsAux : Nat → Nat → Str
  | 0, _ => []
  | fuel + 1, n =>
    if n < 10 then [digitChar n]
    else natDigitsAux fuel (n / 10) ++ [digitChar (n % 10)]

/-- Decimal digits of a natural number, as printed by JS template
interpolation of a nonnegative integer. -/
def natDigits (n : Nat) : Str := natDigitsAux (n + 1) n

/-- Decimal rendering of an integer, as printed by JS template interpolation. -/
def intDigits (i : Int) : Str :=
  if i < 0 then '-' :: natDigits i.natAbs else natDigits i.toNat

/-- Longest leading run of decimal digits, or none when there is no leading
digit. -/
def parseLeadingNat (cs : Str) : Option Nat :=
  if cs.takeWhile isDigitCh = [] then none
  else some (digitsToNat (cs.takeWhile isDigitCh))

/-- Core of the JS parseInt model, after whitespace skipping: an optional
sign followed by decimal digits; none models NaN. -/
def jsParseIntCore : Str → Option Int
  | [] => none
  | c :: rest =>
    if c = '-' then (parseLeadingNat rest).map (fun n => -(n : Int))
    else if c = '+' then (parseLeadingNat rest).map (fun n => (n : Int))
    else (parseLeadingNat (c :: rest)).map (fun n => (n : Int))

/-- Model of JS parseInt in base 10: skip leading spaces, optional sign,
then decimal digits; none models NaN.  (JS parseInt also accepts a
hexadecimal 0x form and other whitespace characters; version strings
written by this application never take those shapes, so the model covers
the decimal behaviour.) -/
def jsParseInt (cs : Str) : Option Int :=
  jsParseIntCore (cs.dropWhile (fun c => decide (c = ' ')))

/-- Remove the first occurrence of a character: JS string replace with a
one-character pattern and an empty replacement, as in handleSave. -/
def removeFirst (c : Char) : Str → Str
  | [] => []
  | x :: xs => if x = c then xs else x :: removeFirst c xs

/-- Everything before the first dot: JS split on a dot, first component. -/
def beforeDot (cs : Str) : Str := cs.takeWhile (fun c => decide (c ≠ '.'))

/-- The nextVersion closure of handleSave (src/unnamed/part_000 lines
233-236): parse the integer major component of the version tag, treat NaN
as 0, add one, and render as a v-prefixed tag with minor component 0. -/
def nextVersion (ver : Str) : Str :=
  'v' :: intDigits (((jsParseInt (beforeDot (removeFirst 'v' ver))).getD 0) + 1)
    ++ ['.', '0']

/-- The version tag with major number k and minor component 0. -/
def verString (k : Nat) : Str := 'v' :: natDigits k ++ ['.', '0']

/-! ### Data model (src/types.ts) -/

/-- The two backend variants of the model adapter. -/
inductive AIModel
  | GEMINI
  | QWEN
deriving DecidableEq

/-- The three view states of the workflow controller. -/
inductive ViewMode
  | LIST
  | EDIT
  | PREVIEW
deriving DecidableEq

/-- The persisted artifact shape.  The created-at timestamp is assigned by
storage and never read by the core logic, so it is omitted. -/
structure PromptRecord where
  id : Option Nat
  title : Str
  summary : Str
  content : Str
  excontext : Option Str
  version : Str
deriving DecidableEq

/-- Runtime shape of an analysis result.  The TS declaration promises both
fields, but JSON.parse of an object without them yields undefined fields,
so the faithful runtime model makes both optional. -/
structure AIAnalysisResultJS where
  optimizedPrompt : Option Str
  changeLog : Option (List Str)
deriving DecidableEq

/-- A transient user-visible notice. -/
structure Toast where
  msg : Str
  isError : Bool
deriving DecidableEq

/-! ### Model adapter (AiService, src/unnamed/part_000 lines 4-80)

The wire text returned by a backend is modelled by its parse outcome: a
JSON object carrying the two optional result fields, or a malformed text
on which JSON.parse throws.  The outbound request assembly (system prompt
plus user message) is opaque configuration; the text actually sent is
recorded by the controller model below. -/

/-- A model-produced text, represented by what JSON.parse makes of it. -/
inductive JsonText
  | obj (optimizedPrompt : Option Str) (changeLog : Option (List Str))
  | malformed
deriving DecidableEq

/-- JSON.parse on a model-produced text: the object fields, or none when
the text is not valid JSON (JSON.parse throws). -/
def jsonParse : JsonText → Option AIAnalysisResultJS
  | .obj p c => some { optimizedPrompt := p, changeLog := c }
  | .malformed => none

/-- The parse shape of the literal two-character object text substituted by
the Gemini branch when the response carries no text: an object with both
result fields absent. -/
def emptyObjectText : JsonText := .obj none none

/-- The single error channel of the analysis call: every throw inside
analyzePrompt reaches the caller through this one type. -/
inductive AnalysisError
  | network
  | badStatus
  | badEnvelope
  | badJson
deriving DecidableEq

/-- Environment of one Gemini generateContent call: an error means the SDK
call rejected; ok none means the response text was absent or empty
(falsy), ok some is the returned text. -/
structure GeminiEnv where
  generate : Except Unit (Option JsonText)

/-- The parsed Qwen HTTP body, as far as the code walks it: the inner
message content string, or none when the choices-message-content path is
missing (a field access throws). -/
structure QwenEnvelope where
  content : Option JsonText

/-- One Qwen fetch response: the ok status flag and the body, where none
models a body on which the json() call throws. -/
structure QwenHttp where
  ok : Bool
  body : Option QwenEnvelope

/-- Environment of one Qwen chat-completions call: an error means fetch
itself rejected (network failure). -/
structure QwenEnv where
  fetch : Except Unit QwenHttp

/-- Environments for both backends of one analyzePrompt call. -/
structure AiEnv where
  gemini : GeminiEnv
  qwen : QwenEnv

/-- The Gemini branch of analyzePrompt (lines 42-54): on response, take the
text or substitute the empty-object literal when the text is falsy, then
JSON.parse it. -/
def geminiAnalyzePrompt (env : GeminiEnv) : Except AnalysisError AIAnalysisResultJS :=
  match env.generate with
  | .error _ => .error .network
  | .ok t =>
    match jsonParse (t.getD emptyObjectText) with
    | some r => .ok r
    | none => .error .badJson

/-- The Qwen branch of analyzePrompt (lines 56-78): throw on a non-ok
status, walk the response body to the message content, JSON.parse it. -/
def qwenAnalyzePrompt (env : QwenEnv) : Except AnalysisError AIAnalysisResultJS :=
  match env.fetch with
  | .error _ => .error .network
  | .ok res =>
    if res.ok then
      match res.body with
      | none => .error .badEnvelope
      | some envelope =>
        match envelope.content with
        | none => .error .badEnvelope
        | some t =>
          match jsonParse t with
          | some r => .ok r
          | none => .error .badJson
    else .error .badStatus

/-- AiService.analyzePrompt: dispatch on the selected backend variant. -/
def analyzePrompt (m : AIModel) (env : AiEnv) : Except AnalysisError AIAnalysisResultJS :=
  match m with
  | .GEMINI => geminiAnalyzePrompt env.gemini
  | .QWEN => qwenAnalyzePrompt env.qwen

/-- Environment of one checkConnection call: presence of the Gemini
credential, and the outcome of the Qwen model-listing probe (error means
the fetch rejected; the Bool is the ok status flag). -/
structure CheckEnv where
  apiKeyPresent : Bool
  qwenFetch : Except Unit Bool

/-- The try-block of AiService.checkConnection (lines 5-20), before the
catch handler: Gemini is a local credential-presence check and cannot
throw; Qwen propagates a fetch rejection. -/
def checkConnectionBody (m : AIModel) (env : CheckEnv) : Except Unit Bool :=
  match m with
  | .GEMINI => .ok env.apiKeyPresent
  | .QWEN =>
    match env.qwenFetch with
    | .error e => .error e
    | .ok okFlag => .ok okFlag

/-- AiService.checkConnection with its catch handler: every throw
collapses to false, so the function is total on Bool. -/
def checkConnection (m : AIModel) (env : CheckEnv) : Bool :=
  match checkConnectionBody m env with
  | .ok b => b
  | .error _ => false

/-! ### Workflow controller (the App component) -/

/-- The session state held by the App component.  The two observer fields
inFlight and lastRequest record, respectively, how many analyzePrompt
promises are pending and the content-title pair of the most recent
outbound analysis request; they stand for the asynchronous call itself. -/
structure AppState where
  viewMode : ViewMode
  draft : PromptRecord
  selectedPromptId : Option Nat
  aiResult : Option AIAnalysisResultJS
  isAnalyzing : Bool
  inFlight : Nat
  lastRequest : Option (Str × Str)
  toast : Option Toast
deriving DecidableEq

/-- The empty draft installed by handleCreateNew (lines 172-183). -/
def emptyDraft : PromptRecord :=
  { id := none, title := [], summary := [], content := [],
    excontext := some [], version := "v1.0".data }

/-- Initial session state of the App component (lines 105-129). -/
def initState : AppState :=
  { viewMode := .LIST
    draft := emptyDraft
    selectedPromptId := none
    aiResult := none
    isAnalyzing := false
    inFlight := 0
    lastRequest := none
    toast := none }

/-- The synchronous part of handleAiAnalyze (lines 210-215): refuse with a
validation toast when title or content is empty (JS falsiness of the empty
string), otherwise set the analyzing flag and issue the request with the
current draft content and title. -/
def handleAiAnalyze (s : AppState) : AppState :=
  if s.draft.title = [] ∨ s.draft.content = [] then
    { s with toast := some ⟨"请填写完整名称和内容".data, true⟩ }
  else
    { s with isAnalyzing := true
             inFlight := s.inFlight + 1
             lastRequest := some (s.draft.content, s.draft.title) }

/-- The toast text shown when an analysis call fails (line 222 shows the
error message when present, else a fallback).  Of the modelled errors only
the bad-status throw carries a message written by this code; the network
and parse errors carry environment messages, which no claim depends on, so
they are rendered with the fallback text. -/
def analysisFailMsg : AnalysisError → Str
  | .badStatus => "Qwen API failed".data
  | _ => "AI 分析失败，请检查配置".data

/-- Resolution of one pending analyzePrompt promise (lines 216-225): on
success store the result and move to PREVIEW; on failure show the error
toast; either way the finally-clause clears the analyzing flag. -/
def resolveAnalysis (s : AppState) (outcome : Except AnalysisError AIAnalysisResultJS) :
    AppState :=
  match outcome with
  | .ok r =>
    { s with aiResult := some r
             viewMode := .PREVIEW
             isAnalyzing := false
             inFlight := s.inFlight - 1 }
  | .error e =>
    { s with toast := some ⟨analysisFailMsg e, true⟩
             isAnalyzing := false
             inFlight := s.inFlight - 1 }

/-- The payload summary fields of PromptRecord that handleSave assembles
and passes to the storage create-or-update call (lines 238-260).  The
content field is optional because an AI result with an absent
optimizedPrompt is stored as-is. -/
structure SavePayload where
  title : Str
  summary : Str
  content : Option Str
  excontext : Str
  version : Str
deriving DecidableEq

/-- The record handleSave sends to storage: excontext is the draft content
as it stands at save time, content is the optimized prompt when an AI
result is present and the draft content otherwise, and the version is
bumped on the update path and forced to the v1.0 literal on the create
path. -/
def savePayload (s : AppState) : SavePayload :=
  { title := s.draft.title
    summary := s.draft.summary
    excontext := s.draft.content
    content :=
      match s.aiResult with
      | some r => r.optimizedPrompt
      | none => some s.draft.content
    version :=
      match s.selectedPromptId with
      | some _ => nextVersion s.draft.version
      | none => "v1.0".data }

/-- The effect of handleSave on session state, given the storage outcome
(lines 247-268): on success show the success toast and move to LIST; on a
storage throw the catch handler only shows the failure toast, leaving the
view, the draft and the AI result untouched. -/
def handleSave (s : AppState) (storage : Except Unit PromptRecord) : AppState :=
  match storage with
  | .ok saved =>
    { s with toast := some ⟨"保存成功 ".data ++ saved.version, false⟩
             viewMode := .LIST }
  | .error _ => { s with toast := some ⟨"保存失败".data, true⟩ }

/-- handleCreateNew (lines 172-183): reset the draft, clear selection and
AI result, enter EDIT. -/
def createNewAction (s : AppState) : AppState :=
  { s with draft := emptyDraft
           selectedPromptId := none
           aiResult := none
           viewMode := .EDIT }

/-- UI events of the App component.  Each event is a click or input on a
rendered control; the guards in step encode the render conditions and
disabled attributes of the corresponding JSX. -/
inductive Event
  | clickCreateNew
  | clickEditRecord (p : PromptRecord)
  | setTitle (t : Str)
  | setSummary (t : Str)
  | setContent (t : Str)
  | navList
  | navEditSidebar
  | navPreviewSidebar
  | backToList
  | backToEdit
  | clickEditAnalyze
  | clickReanalyze
  | clickRevert
  | editPreviewText (t : Str)
  | analysisResolved (outcome : Except AnalysisError AIAnalysisResultJS)
  | clickSave (storage : Except Unit PromptRecord)

/-- One step of the App state machine.
Guards, from the JSX: the create button renders in LIST (line 367); the
per-record edit button renders in LIST (line 406); the title, summary and
content inputs render in EDIT (lines 452-493); the sidebar preview button
is disabled while the draft content is empty (line 323); the EDIT analyze
button is disabled while analyzing (line 499); the PREVIEW re-analyze
button (lines 538-544) carries no disabled attribute; the revert button
renders only when an AI result is present (lines 530-537); the PREVIEW
textarea routes edits to the optimized prompt when an AI result is present
and to the draft content otherwise (lines 563-575); the save button
renders in PREVIEW (lines 579-585). -/
def step (s : AppState) (e : Event) : AppState :=
  match e with
  | .clickCreateNew => if s.viewMode = .LIST then createNewAction s else s
  | .clickEditRecord p =>
    if s.viewMode = .LIST then
      match p.id with
      | some i =>
        { s with draft := p, selectedPromptId := some i, aiResult := none,
                 viewMode := .EDIT }
      | none => s
    else s
  | .setTitle t =>
    if s.viewMode = .EDIT then { s with draft := { s.draft with title := t } } else s
  | .setSummary t =>
    if s.viewMode = .EDIT then { s with draft := { s.draft with summary := t } } else s
  | .setContent t =>
    if s.viewMode = .EDIT then { s with draft := { s.draft with content := t } } else s
  | .navList => { s with viewMode := .LIST }
  | .navEditSidebar =>
    if s.viewMode ≠ .EDIT ∧ s.selectedPromptId = none then createNewAction s
    else { s with viewMode := .EDIT }
  | .navPreviewSidebar =>
    if s.draft.content = [] then s else { s with viewMode := .PREVIEW }
  | .backToList => if s.viewMode = .EDIT then { s with viewMode := .LIST } else s
  | .backToEdit => if s.viewMode = .PREVIEW then { s with viewMode := .EDIT } else s
  | .clickEditAnalyze =>
    if s.viewMode = .EDIT ∧ s.isAnalyzing = false then handleAiAnalyze s else s
  | .clickReanalyze => if s.viewMode = .PREVIEW then handleAiAnalyze s else s
  | .clickRevert =>
    if s.viewMode = .PREVIEW ∧ s.aiResult.isSome then { s with aiResult := none } else s
  | .editPreviewText t =>
    if s.viewMode = .PREVIEW then
      match s.aiResult with
      | some r => { s with aiResult := some { r with optimizedPrompt := some t } }
      | none => { s with draft := { s.draft with content := t } }
    else s
  | .analysisResolved outcome =>
    if 0 < s.inFlight then resolveAnalysis s outcome else s
  | .clickSave storage => if s.viewMode = .PREVIEW then handleSave s storage else s

/-- Run a list of UI events from a state. -/
def run (s : AppState) (es : List Event) : AppState := es.foldl step s

/-! ### Concrete states and environments used by the witnesses -/

/-- An update-path state: an existing record with version v3.0 selected for
editing and previewed without an AI result. -/
def exampleUpdateState : AppState :=
  { viewMode := .PREVIEW
    draft :=
      { id := some 7, title := "A".data, summary := [], content := "do X".data,
        excontext := some [], version := "v3.0".data }
    selectedPromptId := some 7
    aiResult := none
    isAnalyzing := false
    inFlight := 0
    lastRequest := none
    toast := none }

/-- A PREVIEW state with a present AI result over an original draft. -/
def examplePreviewState : AppState :=
  { viewMode := .PREVIEW
    draft :=
      { id := some 7, title := "A".data, summary := [], content := "orig".data,
        excontext := some [], version := "v3.0".data }
    selectedPromptId := some 7
    aiResult := some { optimizedPrompt := some ("better".data), changeLog := some [] }
    isAnalyzing := false
    inFlight := 0
    lastRequest := none
    toast := none }

/-- An EDIT state with one analysis call in flight. -/
def exampleEditAnalyzing : AppState :=
  { viewMode := .EDIT
    draft :=
      { id := none, title := "A".data, summary := [], content := "do X".data,
        excontext := some [], version := "v1.0".data }
    selectedPromptId := none
    aiResult := none
    isAnalyzing := true
    inFlight := 1
    lastRequest := some ("do X".data, "A".data)
    toast := none }

/-- A PREVIEW state with one analysis call already in flight. -/
def examplePreviewAnalyzing : AppState :=
  { viewMode := .PREVIEW
    draft :=
      { id := none, title := "a".data, summary := [], content := "b".data,
        excontext := some [], version := "v1.0".data }
    selectedPromptId := none
    aiResult := none
    isAnalyzing := true
    inFlight := 1
    lastRequest := some ("b".data, "a".data)
    toast := none }

/-- An environment in which both backends reject at the network level. -/
def envGeminiFail : AiEnv :=
  { gemini := { generate := .error () }, qwen := { fetch := .error () } }

/-- An environment in which the Gemini response carries no text. -/
def envGeminiEmpty : AiEnv :=
  { gemini := { generate := .ok none }, qwen := { fetch := .error () } }

/-- An environment in which the Qwen probe rejects. -/
def exampleCheckEnvFail : CheckEnv := { apiKeyPresent := true, qwenFetch := .error () }

/-- The event trace showing two concurrent analysis requests: create a
draft, fill it in, open the preview, and click the PREVIEW re-analyze
button twice. -/
def doubleAnalyzeTrace : List Event :=
  [.clickCreateNew, .setTitle ("a".data), .setContent ("b".data),
   .navPreviewSidebar, .clickReanalyze, .clickReanalyze]

/-! ### Arithmetic of the version tag -/

lemma digitChar_toNat (d : Nat) (hd : d < 10) : (digitChar d).toNat = 48 + d := by
  interval_cases d <;> rfl

lemma isDigitCh_digitChar (d : Nat) (hd : d < 10) : isDigitCh (digitChar d) = true := by
  interval_cases d <;> decide

lemma digitsToNat_append_digit (xs : Str) (c : Char) :
    digitsToNat (xs ++ [c]) = 10 * digitsToNat xs + (c.toNat - 48) := by
  simp [digitsToNat, List.foldl_append]

lemma natDigitsAux_spec (fuel : Nat) : ∀ n, n < fuel →
    digitsToNat (natDigitsAux fuel n) = n ∧
    natDigitsAux fuel n ≠ [] ∧
    ∀ c ∈ natDigitsAux fuel n, isDigitCh c = true := by
  induction fuel with
  | zero => intro n h; exact absurd h (by omega)
  | succ fuel ih =>
    intro n h
    by_cases h10 : n < 10
    · refine ⟨?_, ?_, ?_⟩
      · have hdc := digitChar_toNat n h10
        simp [natDigitsAux, h10, digitsToNat]
        omega
      · simp [natDigitsAux, h10]
      · intro c hc
        simp [natDigitsAux, h10] at hc
        subst hc
        exact isDigitCh_digitChar n h10
    · have hdiv : n / 10 < fuel := by omega
      obtain ⟨ih1, ih2, ih3⟩ := ih (n / 10) hdiv
      have heq : natDigitsAux (fuel + 1) n
          = natDigitsAux fuel (n / 10) ++ [digitChar (n % 10)] := by
        simp [natDigitsAux, h10]
      refine ⟨?_, ?_, ?_⟩
      · rw [heq, digitsToNat_append_digit, ih1, digitChar_toNat _ (by omega)]
        omega
      · rw [heq]; simp
      · intro c hc
        rw [heq] at hc
        rcases List.mem_append.mp hc with hmem | hmem
        · exact ih3 c hmem
        · simp at hmem
          subst hmem
          exact isDigitCh_digitChar _ (by omega)

lemma digitsToNat_natDigits (n : Nat) : digitsToNat (natDigits n) = n :=
  (natDigitsAux_spec (n + 1) n (by omega)).1

lemma natDigits_ne_nil (n : Nat) : natDigits n ≠ [] :=
  (natDigitsAux_spec (n + 1) n (by omega)).2.1

lemma natDigits_all_digits (n : Nat) : ∀ c ∈ natDigits n, isDigitCh c = true :=
  (natDigitsAux_spec (n + 1) n (by omega)).2.2

lemma digit_toNat_bounds {c : Char} (h : isDigitCh c = true) :
    48 ≤ c.toNat ∧ c.toNat ≤ 57 := by
  simpa [isDigitCh] using h

lemma natDigits_head_digit (n : Nat) :
    ∃ c cs, natDigits n = c :: cs ∧ isDigitCh c = true := by
  cases h : natDigits n with
  | nil => exact absurd h (natDigits_ne_nil n)
  | cons c cs =>
    exact ⟨c, cs, rfl, natDigits_all_digits n c (by rw [h]; simp)⟩

lemma dropWhile_cons_of_neg {p : Char → Bool} {c : Char} {cs : Str} (h : p c = false) :
    List.dropWhile p (c :: cs) = c :: cs := by
  simp [List.dropWhile_cons, h]

lemma takeWhile_eq_self {p : Char → Bool} :
    ∀ xs : Str, (∀ c ∈ xs, p c = true) → xs.takeWhile p = xs := by
  intro xs
  induction xs with
  | nil => intro _; simp
  | cons c cs ih =>
    intro h
    have hc : p c = true := h c (List.mem_cons_self c cs)
    have ht := ih (fun d hd => h d (List.mem_cons_of_mem c hd))
    simp [List.takeWhile_cons, hc, ht]

lemma takeWhile_append_all {p : Char → Bool} :
    ∀ xs ys : Str, (∀ c ∈ xs, p c = true) →
      (xs ++ ys).takeWhile p = xs ++ ys.takeWhile p := by
  intro xs ys
  induction xs with
  | nil => intro _; simp
  | cons c cs ih =>
    intro h
    have hc : p c = true := h c (List.mem_cons_self c cs)
    have ht := ih (fun d hd => h d (List.mem_cons_of_mem c hd))
    simp [List.takeWhile_cons, hc, ht]

lemma beforeDot_natDigits (k : Nat) :
    beforeDot (natDigits k ++ ['.', '0']) = natDigits k := by
  have hall : ∀ c ∈ natDigits k, (fun c => decide (c ≠ '.')) c = true := by
    intro c hc
    have hb := digit_toNat_bounds (natDigits_all_digits k c hc)
    have hne : c ≠ '.' := by
      intro hcd
      subst hcd
      exact absurd hb.1 (by decide)
    simp [hne]
  unfold beforeDot
  rw [takeWhile_append_all _ _ hall]
  simp [List.takeWhile_cons]

lemma jsParseInt_natDigits (k : Nat) : jsParseInt (natDigits k) = some (k : Int) := by
  obtain ⟨c, cs, hcons, hdig⟩ := natDigits_head_digit k
  have hb := digit_toNat_bounds hdig
  have hsp : c ≠ ' ' := by
    intro h; subst h; exact absurd hb.1 (by decide)
  have hminus : c ≠ '-' := by
    intro h; subst h; exact absurd hb.1 (by decide)
  have hplus : c ≠ '+' := by
    intro h; subst h; exact absurd hb.1 (by decide)
  have h1 : (natDigits k).dropWhile (fun x => decide (x = ' ')) = natDigits k := by
    rw [hcons]
    exact dropWhile_cons_of_neg (by simp [hsp])
  have h2 : parseLeadingNat (natDigits k) = some k := by
    unfold parseLeadingNat
    rw [takeWhile_eq_self _ (natDigits_all_digits k), if_neg (natDigits_ne_nil k),
      digitsToNat_natDigits]
  unfold jsParseInt
  rw [h1, hcons]
  simp only [jsParseIntCore, if_neg hminus, if_neg hplus]
  rw [← hcons, h2]
  rfl

lemma nextVersion_verString (k : Nat) : nextVersion (verString k) = verString (k + 1) := by
  have h0 : removeFirst 'v' (verString k) = natDigits k ++ ['.', '0'] := by
    simp [verString, removeFirst]
  have h2 : intDigits ((k : Int) + 1) = natDigits (k + 1) := by
    unfold intDigits
    rw [if_neg (by omega : ¬((k : Int) + 1 < 0))]
    congr 1
  unfold nextVersion
  rw [h0, beforeDot_natDigits, jsParseInt_natDigits]
  show 'v' :: intDigits ((k : Int) + 1) ++ ['.', '0'] = verString (k + 1)
  rw [h2]
  rfl

lemma nextVersion_of_parse_none (ver : Str)
    (h : jsParseInt (beforeDot (removeFirst 'v' ver)) = none) :
    nextVersion ver = verString 1 := by
  unfold nextVersion
  rw [h]
  decide

/-! ### Claims -/

/-- C1: for every save, the update path (an existing id is set) persists
version v(k+1).0 where k is the integer major component parsed from the
current draft version, an unparsable major component is treated as 0 so
the next version is v1.0 (the computation is a total function, hence never
raises), and the create path persists the literal v1.0 whatever version
the draft carries. -/
theorem c1_version_bump (s : AppState) :
    (s.selectedPromptId = none → (savePayload s).version = verString 1) ∧
    (∀ i, s.selectedPromptId = some i →
      ((∀ k : Nat, s.draft.version = verString k →
          (savePayload s).version = verString (k + 1)) ∧
       (jsParseInt (beforeDot (removeFirst 'v' s.draft.version)) = none →
          (savePayload s).version = verString 1))) := by
  constructor
  · intro h
    simp [savePayload, h]
    decide
  · intro i hi
    constructor
    · intro k hk
      simp [savePayload, hi, hk]
      exact nextVersion_verString k
    · intro hnone
      simp [savePayload, hi]
      exact nextVersion_of_parse_none _ hnone

/-- C1 witness: saving the selected record with draft version v3.0 persists
version v4.0. -/
theorem c1_version_bump_witness :
    (savePayload exampleUpdateState).version = verString 4 :=
  ((c1_version_bump exampleUpdateState).2 7 rfl).1 3 (by decide)

/-- C2: the persisted content is the optimized prompt when an AI result is
present and the unchanged draft content otherwise, and the persisted
excontext field is always the draft content as it stood at that save. -/
theorem c2_content_excontext (s : AppState) :
    (savePayload s).excontext = s.draft.content ∧
    (∀ r, s.aiResult = some r → (savePayload s).content = r.optimizedPrompt) ∧
    (s.aiResult = none → (savePayload s).content = some s.draft.content) := by
  refine ⟨rfl, ?_, ?_⟩
  · intro r hr
    simp [savePayload, hr]
  · intro h
    simp [savePayload, h]

/-- C2 witness: with an AI result present the persisted content is the
optimized text while excontext keeps the original draft text. -/
theorem c2_content_excontext_witness :
    (savePayload examplePreviewState).excontext = "orig".data ∧
    (savePayload examplePreviewState).content = some ("better".data) :=
  ⟨(c2_content_excontext examplePreviewState).1,
   (c2_content_excontext examplePreviewState).2.1 _ rfl⟩

/-- C3: every failure mode of the analysis call, for either backend —
network rejection, non-success HTTP status, malformed envelope or
malformed model output — reaches the caller as a value of the single
AnalysisError type, and resolving a pending call with any such error
leaves the view in EDIT with the AI result unchanged. -/
theorem c3_analysis_failures (env : AiEnv) (s : AppState) (err : AnalysisError) :
    (env.gemini.generate = .error () → analyzePrompt .GEMINI env = .error .network) ∧
    (∀ t, env.gemini.generate = .ok (some t) → jsonParse t = none →
      analyzePrompt .GEMINI env = .error .badJson) ∧
    (env.qwen.fetch = .error () → analyzePrompt .QWEN env = .error .network) ∧
    (∀ r, env.qwen.fetch = .ok r → r.ok = false →
      analyzePrompt .QWEN env = .error .badStatus) ∧
    (∀ r envl t, env.qwen.fetch = .ok r → r.ok = true → r.body = some envl →
      envl.content = some t → jsonParse t = none →
      analyzePrompt .QWEN env = .error .badJson) ∧
    (s.viewMode = .EDIT → 0 < s.inFlight →
      (step s (.analysisResolved (.error err))).viewMode = .EDIT ∧
      (step s (.analysisResolved (.error err))).aiResult = s.aiResult) := by
  refine ⟨?_, ?_, ?_, ?_, ?_, ?_⟩
  · intro h
    simp [analyzePrompt, geminiAnalyzePrompt, h]
  · intro t hgen hparse
    simp [analyzePrompt, geminiAnalyzePrompt, hgen, hparse]
  · intro h
    simp [analyzePrompt, qwenAnalyzePrompt, h]
  · intro r hf hok
    simp [analyzePrompt, qwenAnalyzePrompt, hf, hok]
  · intro r envl t hf hok hbody hcontent hparse
    simp [analyzePrompt, qwenAnalyzePrompt, hf, hok, hbody, hcontent, hparse]
  · intro hv hin
    constructor
    · simp [step, hin, resolveAnalysis, hv]
    · simp [step, hin, resolveAnalysis]

/-- C3 witness: a Gemini network rejection surfaces as the network error,
and resolving it in EDIT keeps the view in EDIT with no AI result. -/
theorem c3_analysis_failures_witness :
    analyzePrompt .GEMINI envGeminiFail = .error .network ∧
    (step exampleEditAnalyzing (.analysisResolved (.error .network))).viewMode = .EDIT ∧
    (step exampleEditAnalyzing (.analysisResolved (.error .network))).aiResult = none :=
  ⟨(c3_analysis_failures envGeminiFail exampleEditAnalyzing .network).1 rfl,
   ((c3_analysis_failures envGeminiFail exampleEditAnalyzing .network).2.2.2.2.2
     rfl (by decide)).1,
   ((c3_analysis_failures envGeminiFail exampleEditAnalyzing .network).2.2.2.2.2
     rfl (by decide)).2⟩

/-- C4 counterexample: the claim that re-triggering is disabled from every
state that offers the trigger fails.  After creating a draft, filling in
title and content and opening the preview, the first click on the PREVIEW
re-analyze button puts one request in flight with the analyzing flag set,
and a second click on the same button — which carries no disabled
attribute — puts a second request in flight concurrently. -/
theorem c4_counterexample :
    (run initState (doubleAnalyzeTrace.take 5)).isAnalyzing = true ∧
    (run initState (doubleAnalyzeTrace.take 5)).inFlight = 1 ∧
    (run initState doubleAnalyzeTrace).inFlight = 2 := by
  decide

/-- C4 amended: while an analysis call is in flight the EDIT trigger is
disabled (clicking it changes nothing), but the PREVIEW re-analyze trigger
is not disabled, so with a non-empty title and content a further click
puts a second request in flight concurrently. -/
theorem c4_analyzing_guard (s : AppState) (h : s.isAnalyzing = true) :
    step s .clickEditAnalyze = s ∧
    (s.viewMode = .PREVIEW → s.draft.title ≠ [] → s.draft.content ≠ [] →
      (step s .clickReanalyze).inFlight = s.inFlight + 1) := by
  constructor
  · simp [step, h]
  · intro hv ht hc
    simp [step, hv, handleAiAnalyze, ht, hc]

/-- C4 amended witness: in a PREVIEW state with one call in flight, the
EDIT trigger is inert while the re-analyze click raises the in-flight
count to two. -/
theorem c4_analyzing_guard_witness :
    step examplePreviewAnalyzing .clickEditAnalyze = examplePreviewAnalyzing ∧
    (step examplePreviewAnalyzing .clickReanalyze).inFlight = 2 :=
  ⟨(c4_analyzing_guard examplePreviewAnalyzing rfl).1,
   (c4_analyzing_guard examplePreviewAnalyzing rfl).2 rfl (by decide) (by decide)⟩

/-- C5: when the draft title or content is empty, triggering analysis
reports a validation toast and performs no outbound call — the request
counter, the request record and the analyzing flag are untouched — and the
request is issued exactly when both are non-empty. -/
theorem c5_validation_guard (s : AppState) :
    ((s.draft.title = [] ∨ s.draft.content = []) →
      (handleAiAnalyze s).isAnalyzing = s.isAnalyzing ∧
      (handleAiAnalyze s).inFlight = s.inFlight ∧
      (handleAiAnalyze s).lastRequest = s.lastRequest ∧
      (handleAiAnalyze s).toast = some ⟨"请填写完整名称和内容".data, true⟩) ∧
    (s.draft.title ≠ [] → s.draft.content ≠ [] →
      (handleAiAnalyze s).lastRequest = some (s.draft.content, s.draft.title) ∧
      (handleAiAnalyze s).inFlight = s.inFlight + 1) := by
  constructor
  · intro h
    unfold handleAiAnalyze
    rw [if_pos h]
    exact ⟨rfl, rfl, rfl, rfl⟩
  · intro ht hc
    unfold handleAiAnalyze
    rw [if_neg (fun h => h.elim ht hc)]
    exact ⟨rfl, rfl⟩

/-- C5 witness: in the initial state the draft is empty, so triggering
analysis issues no request. -/
theorem c5_validation_guard_witness :
    (handleAiAnalyze initState).inFlight = 0 ∧
    (handleAiAnalyze initState).lastRequest = none ∧
    (handleAiAnalyze initState).isAnalyzing = false :=
  ⟨((c5_validation_guard initState).1 (Or.inl rfl)).2.1,
   ((c5_validation_guard initState).1 (Or.inl rfl)).2.2.1,
   ((c5_validation_guard initState).1 (Or.inl rfl)).1⟩

/-- C6: revert clears the AI result and leaves the draft unchanged — a
successful analysis resolution never mutates the draft either — so saving
after a revert persists the draft content both as content and as
excontext, discarding the AI text entirely. -/
theorem c6_revert_then_save (s : AppState) (hv : s.viewMode = .PREVIEW)
    (hr : s.aiResult.isSome = true) :
    (step s .clickRevert).aiResult = none ∧
    (step s .clickRevert).draft = s.draft ∧
    (savePayload (step s .clickRevert)).content = some s.draft.content ∧
    (savePayload (step s .clickRevert)).excontext = s.draft.content ∧
    (∀ outcome, (step s (.analysisResolved outcome)).draft = s.draft) := by
  have hstep : step s .clickRevert = { s with aiResult := none } := by
    simp [step, hv, hr]
  refine ⟨by rw [hstep], by rw [hstep], ?_, ?_, ?_⟩
  · rw [hstep]
    simp [savePayload]
  · rw [hstep]
    simp [savePayload]
  · intro outcome
    by_cases hf : 0 < s.inFlight
    · cases outcome <;> simp [step, hf, resolveAnalysis]
    · simp [step, hf]

/-- C6 witness: reverting the example preview state and saving persists the
original draft text, not the AI text. -/
theorem c6_revert_then_save_witness :
    (savePayload (step examplePreviewState .clickRevert)).content
      = some ("orig".data) ∧
    (step examplePreviewState .clickRevert).aiResult = none :=
  ⟨(c6_revert_then_save examplePreviewState rfl rfl).2.2.1,
   (c6_revert_then_save examplePreviewState rfl rfl).1⟩

/-- C7: the PREVIEW re-analyze trigger sends the current draft content and
title — whatever the AI result holds, including an edited optimized
prompt, the outbound request text is the draft content. -/
theorem c7_reanalyze_uses_draft (s : AppState) (hv : s.viewMode = .PREVIEW)
    (ht : s.draft.title ≠ []) (hc : s.draft.content ≠ []) :
    (step s .clickReanalyze).lastRequest = some (s.draft.content, s.draft.title) := by
  simp [step, hv, handleAiAnalyze, ht, hc]

/-- C7 witness: re-analyzing the example preview state sends the original
draft text, not the optimized text. -/
theorem c7_reanalyze_uses_draft_witness :
    (step examplePreviewState .clickReanalyze).lastRequest
      = some ("orig".data, "A".data) :=
  c7_reanalyze_uses_draft examplePreviewState rfl (by decide) (by decide)

/-- C8: checkConnection is total on Bool — every throw of its body is
caught and collapsed to false — and it answers true only when the probe
genuinely succeeded. -/
theorem c8_check_never_throws (m : AIModel) (env : CheckEnv) :
    (∀ e, checkConnectionBody m env = .error e → checkConnection m env = false) ∧
    (checkConnection m env = true → checkConnectionBody m env = .ok true) := by
  obtain ⟨key, qf⟩ := env
  constructor
  · intro e he
    cases m with
    | GEMINI => simp [checkConnectionBody] at he
    | QWEN =>
      cases qf with
      | error u => simp [checkConnection, checkConnectionBody]
      | ok b => simp [checkConnectionBody] at he
  · intro h
    cases m with
    | GEMINI =>
      cases key with
      | false => simp [checkConnection, checkConnectionBody] at h
      | true => simp [checkConnectionBody]
    | QWEN =>
      cases qf with
      | error u => simp [checkConnection, checkConnectionBody] at h
      | ok b =>
        cases b with
        | false => simp [checkConnection, checkConnectionBody] at h
        | true => simp [checkConnectionBody]

/-- C8 witness: a rejected Qwen probe yields false rather than an error. -/
theorem c8_check_never_throws_witness :
    checkConnection .QWEN exampleCheckEnvFail = false :=
  (c8_check_never_throws .QWEN exampleCheckEnvFail).1 () rfl

/-- C9: when the storage call of a save fails, the failure toast is shown
and nothing else changes: the view stays in PREVIEW and the draft and AI
result are preserved. -/
theorem c9_persistence_failure (s : AppState) (hv : s.viewMode = .PREVIEW) :
    (step s (.clickSave (.error ()))).viewMode = .PREVIEW ∧
    (step s (.clickSave (.error ()))).draft = s.draft ∧
    (step s (.clickSave (.error ()))).aiResult = s.aiResult ∧
    (step s (.clickSave (.error ()))).toast = some ⟨"保存失败".data, true⟩ := by
  have h1 : step s (.clickSave (.error ()))
      = { s with toast := some ⟨"保存失败".data, true⟩ } := by
    simp [step, hv, handleSave]
  rw [h1]
  exact ⟨hv, rfl, rfl, rfl⟩

/-- C9 witness: a failed save from the example preview state stays in
PREVIEW with the AI result intact. -/
theorem c9_persistence_failure_witness :
    (step examplePreviewState (.clickSave (.error ()))).viewMode = ViewMode.PREVIEW ∧
    (step examplePreviewState (.clickSave (.error ()))).aiResult
      = examplePreviewState.aiResult :=
  ⟨(c9_persistence_failure examplePreviewState rfl).1,
   (c9_persistence_failure examplePreviewState rfl).2.2.1⟩

/-- C10: when the Gemini response carries no text, analyzePrompt does not
fail: it substitutes the empty-object literal, parses it, and resolves
successfully with both result fields absent; the caller stores that value
as a successful analysis and moves to PREVIEW. -/
theorem c10_gemini_empty_response (env : AiEnv) (s : AppState)
    (h : env.gemini.generate = .ok none) (hf : 0 < s.inFlight) :
    analyzePrompt .GEMINI env = .ok { optimizedPrompt := none, changeLog := none } ∧
    (step s (.analysisResolved
        (.ok { optimizedPrompt := none, changeLog := none }))).aiResult
      = some { optimizedPrompt := none, changeLog := none } ∧
    (step s (.analysisResolved
        (.ok { optimizedPrompt := none, changeLog := none }))).viewMode
      = .PREVIEW := by
  refine ⟨?_, ?_, ?_⟩
  · simp [analyzePrompt, geminiAnalyzePrompt, h, emptyObjectText, jsonParse]
  · simp [step, hf, resolveAnalysis]
  · simp [step, hf, resolveAnalysis]

/-- C10 witness: the empty-response environment resolves to the ok result
with both fields absent. -/
theorem c10_gemini_empty_response_witness :
    analyzePrompt .GEMINI envGeminiEmpty
      = .ok { optimizedPrompt := none, changeLog := none } :=
  (c10_gemini_empty_response envGeminiEmpty exampleEditAnalyzing rfl (by decide)).1

end PromptPrinter
